import Mathlib

/-!
# Verification of the hand-gesture particle-universe controller

Shallow embedding, in Lean 4, of the control logic of `src/script.js`
(the second, current copy of the program, lines 666-2374): the gesture
classifier (`isFingerExtended`, `detectGesture`, `smoothGesture`), the
shape/color generators (`createParticles`, `getGalaxyColor`,
`getSaturnColor`, `getEarthColor`, the `saturn` template's ring-radius
rejection loop), the per-frame animation steps (tint blending, the
`closed`-gesture morph, `explodeUniverse`) and the UI entry points
(`changeTemplate`, `changeColor`), together with theorems settling the
specification's claims about them.

Modelling conventions:
* JavaScript numbers are embedded as `ℚ`.  Where a computation can
  produce a non-finite value (NaN from `0/0`), the computation is
  embedded over `Option ℚ` with `none` standing for the non-finite
  result, and every arithmetic operation propagates `none` exactly as
  JavaScript propagates NaN.
* The transcendental functions of the host `Math` library
  (`sqrt`, `sin`, `cos`, `acos`, `atan2`, and the constant `pi`) are
  external to the repository; the embedding is parameterised by a
  `JsMath` record of those functions, and theorems assume only the
  documented algebraic facts about them that a proof actually needs
  (e.g. `sin x ^ 2 + cos x ^ 2 = 1`, or `sqrt 0 = 0`).
* `Math.random()` draws are embedded as explicit streams `ℕ → ℚ` of
  values; the guarantee `0 ≤ u < 1` of `Math.random` becomes a
  hypothesis where a claim needs it.
* JavaScript array indexing is embedded with `·[·]?`; an access to
  a missing index followed by a property read (which throws a
  `TypeError` at run time) is embedded as an `Option`/error result.
-/

/-- The external `Math` library functions used by the program.  They are
not part of the repository, so the embedding is parameterised by them;
theorems assume only documented properties of the real functions. -/
structure JsMath where
  sqrt : ℚ → ℚ
  sin : ℚ → ℚ
  cos : ℚ → ℚ
  acos : ℚ → ℚ
  atan2 : ℚ → ℚ → ℚ
  pi : ℚ

/-- A 3D vector, as used through `THREE.Vector3` in the program. -/
structure Vec3 where
  x : ℚ
  y : ℚ
  z : ℚ
deriving DecidableEq, Repr

instance : Inhabited Vec3 := ⟨⟨0, 0, 0⟩⟩

/-- `THREE.Vector3.setFromSphericalCoords(radius, phi, theta)`:
`x = r·sin φ·sin θ`, `y = r·cos φ`, `z = r·sin φ·cos θ`. -/
def setFromSphericalCoords (M : JsMath) (radius phi theta : ℚ) : Vec3 :=
  ⟨radius * M.sin phi * M.sin theta,
   radius * M.cos phi,
   radius * M.sin phi * M.cos theta⟩

/-- One MediaPipe hand landmark: `x`, `y` normalised to `[0,1]`, `z` a
relative depth. -/
structure Landmark where
  x : ℚ
  y : ℚ
  z : ℚ
deriving DecidableEq, Repr

instance : Inhabited Landmark := ⟨⟨0, 0, 0⟩⟩

/-- The closed gesture enumeration produced by `detectGesture`.
(`open` is a Lean keyword, so the `'open'` gesture is named
`openHand`.) -/
inductive Gesture where
  | openHand
  | closed
  | neutral
  | peace
deriving DecidableEq, Repr

/-- `gestureHistorySize = 5` (line 707). -/
def gestureHistorySize : ℕ := 5

/-- `isFingerExtended(handLandmarks, tipIndex, pipIndex)` (lines
1964-1969): reads `handLandmarks[tipIndex].y` and
`handLandmarks[pipIndex].y` and returns `tip.y < pip.y`.  A missing
index throws at the `.y` read; this is embedded as `none`. -/
def isFingerExtended (handLandmarks : List Landmark) (tipIndex pipIndex : ℕ) :
    Option Bool :=
  match handLandmarks[tipIndex]?, handLandmarks[pipIndex]? with
  | some tip, some pip => some (decide (tip.y < pip.y))
  | _, _ => none

/-- `detectGesture(handLandmarks)` (lines 1977-2017): computes the five
per-finger extended flags (thumb 4/3, index 8/6, middle 12/10,
ring 16/14, pinky 20/18), counts the extended fingers excluding the
thumb, and classifies: peace if index and middle are extended and ring
is not; else open if at least 3 extended; else closed if at most 1;
else neutral. -/
def detectGesture (handLandmarks : List Landmark) : Option Gesture :=
  (isFingerExtended handLandmarks 4 3).bind fun _thumbExtended =>
  (isFingerExtended handLandmarks 8 6).bind fun indexExtended =>
  (isFingerExtended handLandmarks 12 10).bind fun middleExtended =>
  (isFingerExtended handLandmarks 16 14).bind fun ringExtended =>
  (isFingerExtended handLandmarks 20 18).bind fun pinkyExtended =>
  let extendedFingers :=
    List.countP (fun b => b)
      [indexExtended, middleExtended, ringExtended, pinkyExtended]
  if indexExtended && middleExtended && !ringExtended then
    some Gesture.peace
  else if 3 ≤ extendedFingers then
    some Gesture.openHand
  else if extendedFingers ≤ 1 then
    some Gesture.closed
  else
    some Gesture.neutral

/-- `smoothGesture(newGesture)` (lines 2024-2047), with the mutable
`gestureHistory` made an explicit argument and result: push the new
sample, shift off the oldest if the length exceeds `gestureHistorySize`,
count occurrences of each gesture, and scan the entries in object
insertion order (`open`, `closed`, `neutral`, `peace`) keeping the first
strictly larger count (start: `maxCount = 0`, `result = 'neutral'`). -/
def smoothGesture (newGesture : Gesture) (history : List Gesture) :
    Gesture × List Gesture :=
  let h1 := history ++ [newGesture]
  let h2 := if gestureHistorySize < h1.length then h1.tail else h1
  let entries : List Gesture :=
    [Gesture.openHand, Gesture.closed, Gesture.neutral, Gesture.peace]
  let best := entries.foldl
    (fun acc g => if acc.2 < h2.count g then (g, h2.count g) else acc)
    (Gesture.neutral, 0)
  (best.1, h2)

/-! ### Claim-side vocabulary for the classifier -/

/-- The claim's "fingertip is above its PIP joint (tip y smaller than
joint y)", read off the landmark list (`false` if an index is absent;
the claims using it always assume all indices are present). -/
def fingerAboveAt (handLandmarks : List Landmark) (tipIndex pipIndex : ℕ) :
    Bool :=
  match handLandmarks[tipIndex]?, handLandmarks[pipIndex]? with
  | some tip, some pip => decide (tip.y < pip.y)
  | _, _ => false

/-- The claim's count of extended fingers among index, middle, ring and
pinky (thumb excluded). -/
def extendedCountOf (handLandmarks : List Landmark) : ℕ :=
  List.countP (fun b => b)
    [fingerAboveAt handLandmarks 8 6, fingerAboveAt handLandmarks 12 10,
     fingerAboveAt handLandmarks 16 14, fingerAboveAt handLandmarks 20 18]

lemma isFingerExtended_eq_some (l : List Landmark) (i j : ℕ)
    (hi : i < l.length) (hj : j < l.length) :
    isFingerExtended l i j = some (fingerAboveAt l i j) := by
  simp [isFingerExtended, fingerAboveAt, List.getElem?_eq_getElem, hi, hj]

/-- **C1.**  For a landmark list containing all required indices
(length ≥ 21), `detectGesture` returns `peace` exactly when the index
and middle fingertips are above their PIP joints and the ring fingertip
is not — independently of the thumb and pinky, which do not occur in
that condition — and otherwise returns `open` iff at least 3 of
{index, middle, ring, pinky} are extended, `closed` iff at most 1 is,
and `neutral` in the remaining case, the checks applying in that order
with the first match winning. -/
theorem detectGesture_spec (l : List Landmark) (hlen : 21 ≤ l.length) :
    (detectGesture l = some Gesture.peace ↔
      (fingerAboveAt l 8 6 ∧ fingerAboveAt l 12 10 ∧ ¬ fingerAboveAt l 16 14)) ∧
    (¬ (fingerAboveAt l 8 6 ∧ fingerAboveAt l 12 10 ∧ ¬ fingerAboveAt l 16 14) →
      ((detectGesture l = some Gesture.openHand ↔ 3 ≤ extendedCountOf l) ∧
       (detectGesture l = some Gesture.closed ↔ extendedCountOf l ≤ 1) ∧
       (¬ 3 ≤ extendedCountOf l → ¬ extendedCountOf l ≤ 1 →
         detectGesture l = some Gesture.neutral))) := by
  have h43 := isFingerExtended_eq_some l 4 3 (by omega) (by omega)
  have h86 := isFingerExtended_eq_some l 8 6 (by omega) (by omega)
  have h1210 := isFingerExtended_eq_some l 12 10 (by omega) (by omega)
  have h1614 := isFingerExtended_eq_some l 16 14 (by omega) (by omega)
  have h2018 := isFingerExtended_eq_some l 20 18 (by omega) (by omega)
  unfold detectGesture
  rw [h43, h86, h1210, h1614, h2018]
  simp only [Option.bind_some, extendedCountOf]
  cases hb1 : fingerAboveAt l 8 6 <;>
    cases hb2 : fingerAboveAt l 12 10 <;>
      cases hb3 : fingerAboveAt l 16 14 <;>
        cases hb4 : fingerAboveAt l 20 18 <;>
          simp [List.countP, List.countP.go]

/-- Witness hand for `detectGesture_spec`: 21 landmarks with index and
middle fingertips above their PIP joints (tip `y` 0 below joint `y` 1),
the ring fingertip below its joint, and thumb and pinky curled. -/
def witnessHand : List Landmark :=
  [⟨0, 0, 0⟩, ⟨0, 0, 0⟩, ⟨0, 0, 0⟩, ⟨0, 0, 0⟩, ⟨0, 0, 0⟩,
   ⟨0, 0, 0⟩, ⟨0, 1, 0⟩, ⟨0, 0, 0⟩, ⟨0, 0, 0⟩, ⟨0, 0, 0⟩,
   ⟨0, 1, 0⟩, ⟨0, 0, 0⟩, ⟨0, 0, 0⟩, ⟨0, 0, 0⟩, ⟨0, 0, 0⟩,
   ⟨0, 0, 0⟩, ⟨0, 1, 0⟩, ⟨0, 0, 0⟩, ⟨0, 0, 0⟩, ⟨0, 0, 0⟩,
   ⟨0, 0, 0⟩]

theorem detectGesture_spec_witness :
    21 ≤ witnessHand.length ∧
    (detectGesture witnessHand = some Gesture.peace ↔
      (fingerAboveAt witnessHand 8 6 ∧ fingerAboveAt witnessHand 12 10 ∧
        ¬ fingerAboveAt witnessHand 16 14)) :=
  ⟨by decide, (detectGesture_spec witnessHand (by decide)).1⟩

/-! ### C2: gesture smoothing -/

/-- The claim's enumeration order `open, closed, neutral, peace`
(position of each gesture in the scan of `smoothGesture`). -/
def gestureRank : Gesture → ℕ
  | Gesture.openHand => 0
  | Gesture.closed => 1
  | Gesture.neutral => 2
  | Gesture.peace => 3

lemma count_gestures_eq_length (l : List Gesture) :
    l.count Gesture.openHand + l.count Gesture.closed +
      l.count Gesture.neutral + l.count Gesture.peace = l.length := by
  induction l with
  | nil => rfl
  | cons hd tl ih =>
    cases hd <;> simp [List.count_cons] <;> omega

/-- The max-count scan of `smoothGesture`, as a standalone function of
the sample list (definitionally the scan inside `smoothGesture`). -/
def scanBest (l : List Gesture) : Gesture :=
  (([Gesture.openHand, Gesture.closed, Gesture.neutral,
      Gesture.peace]).foldl
    (fun acc g => if acc.2 < l.count g then (g, l.count g) else acc)
    (Gesture.neutral, 0)).1

lemma smoothGesture_fst (g : Gesture) (h : List Gesture) :
    (smoothGesture g h).1 = scanBest (smoothGesture g h).2 := rfl

/-- Characterisation of the max-count scan over a nonempty sample list:
the chosen gesture has maximal count, ties go to the earliest gesture in
the scan order, and a strict-majority gesture is always chosen.
(Nonemptiness matters: on an empty list the scan's `'neutral'` seed is
returned even though `'open'` ties it at count 0; `smoothGesture` always
scans a nonempty list, having just pushed a sample.) -/
lemma scanBest_spec (l : List Gesture) (hne : 0 < l.length) :
    (∀ g' : Gesture, l.count g' ≤ l.count (scanBest l)) ∧
    (∀ g' : Gesture, l.count g' = l.count (scanBest l) →
      gestureRank (scanBest l) ≤ gestureRank g') ∧
    (∀ g0 : Gesture, l.length < 2 * l.count g0 → scanBest l = g0) := by
  have hsum := count_gestures_eq_length l
  unfold scanBest
  simp only [List.foldl]
  split_ifs <;>
    refine ⟨?_, ?_, ?_⟩ <;>
      intro g <;> (try intro hg) <;>
        rcases g <;>
          (try simp only [gestureRank] at *) <;>
            first
            | rfl
            | omega

/-- **C2.**  For a history of length at most 5 and any new raw sample,
`smoothGesture` appends the sample, drops the oldest sample exactly when
the length would exceed 5, and returns the most frequent gesture of the
resulting samples: a strict-majority gesture is always returned
(whatever the sample order), and on equal counts the gesture earliest in
the enumeration order `open, closed, neutral, peace` wins. -/
theorem smoothGesture_spec (g : Gesture) (h : List Gesture)
    (hlen : h.length ≤ 5) :
    ((smoothGesture g h).2 =
      if 5 < h.length + 1 then (h ++ [g]).tail else h ++ [g]) ∧
    (smoothGesture g h).2.length ≤ 5 ∧
    (∀ g0 : Gesture,
      (smoothGesture g h).2.length < 2 * (smoothGesture g h).2.count g0 →
        (smoothGesture g h).1 = g0) ∧
    (∀ g' : Gesture,
      (smoothGesture g h).2.count g' ≤
        (smoothGesture g h).2.count (smoothGesture g h).1) ∧
    (∀ g' : Gesture,
      (smoothGesture g h).2.count g' =
          (smoothGesture g h).2.count (smoothGesture g h).1 →
        gestureRank (smoothGesture g h).1 ≤ gestureRank g') := by
  have hlen2 : 0 < (smoothGesture g h).2.length := by
    simp only [smoothGesture, gestureHistorySize]
    split_ifs with hc <;>
      simp only [List.length_tail, List.length_append,
        List.length_singleton] at hc ⊢ <;>
        omega
  have hspec := scanBest_spec (smoothGesture g h).2 hlen2
  rw [smoothGesture_fst g h]
  refine ⟨?_, ?_, hspec.2.2, hspec.1, hspec.2.1⟩
  · simp [smoothGesture, gestureHistorySize]
  · have h2 : (smoothGesture g h).2 =
        if 5 < h.length + 1 then (h ++ [g]).tail else h ++ [g] := by
      simp [smoothGesture, gestureHistorySize]
    rw [h2]
    split_ifs with hc
    · simp only [List.length_tail, List.length_append, List.length_singleton]
      omega
    · simp only [List.length_append, List.length_singleton]
      omega

theorem smoothGesture_spec_witness :
    ([Gesture.closed, Gesture.openHand, Gesture.openHand, Gesture.closed,
        Gesture.peace] : List Gesture).length ≤ 5 ∧
    (smoothGesture Gesture.openHand
      [Gesture.closed, Gesture.openHand, Gesture.openHand, Gesture.closed,
        Gesture.peace]).1 = Gesture.openHand :=
  ⟨by decide,
    (smoothGesture_spec Gesture.openHand
      [Gesture.closed, Gesture.openHand, Gesture.openHand, Gesture.closed,
        Gesture.peace] (by decide)).2.2.1 Gesture.openHand (by decide)⟩

/-! ### C4: the global material tint -/

/-- An RGB color, as `THREE.Color` (channels are plain numbers, not
clamped by the library). -/
structure Color where
  r : ℚ
  g : ℚ
  b : ℚ
deriving DecidableEq, Repr

instance : Inhabited Color := ⟨⟨0, 0, 0⟩⟩

/-- `THREE.Color.lerp(color, alpha)`: each channel moves by
`(target - current) * alpha`. -/
def lerpColor (c target : Color) (alpha : ℚ) : Color :=
  ⟨c.r + (target.r - c.r) * alpha,
   c.g + (target.g - c.g) * alpha,
   c.b + (target.b - c.b) * alpha⟩

/-- The per-gesture tint target of the animation step (lines
2188-2199): closed ⇒ (1.5, 0.9, 0.2), open ⇒ (0.5, 1.0, 1.3),
otherwise white (1, 1, 1). -/
def gestureTint : Gesture → Color
  | Gesture.closed => ⟨3/2, 9/10, 1/5⟩
  | Gesture.openHand => ⟨1/2, 1, 13/10⟩
  | _ => ⟨1, 1, 1⟩

/-- The per-frame gesture-driven tint blend of `animate` (lines
2202-2207): `material.color.lerp(targetTintColor, 0.15)` followed by the
per-channel floor `max(0.3, ·)`. -/
def animateTintStep (g : Gesture) (c : Color) : Color :=
  let c1 := lerpColor c (gestureTint g) (15/100)
  ⟨max (3/10) c1.r, max (3/10) c1.g, max (3/10) c1.b⟩

/-- The UI tint-override blend `changeColor` (lines 1881-1885):
`material.color.lerp(selectedColor, 0.3)` — with no floor clamp. -/
def changeColorStep (selectedColor : Color) (c : Color) : Color :=
  lerpColor c selectedColor (3/10)

/-- A tint-blend operation on the global material color: either one
frame of the gesture-driven blend in `animate`, or one UI tint-override
lerp via `changeColor`. -/
inductive TintOp where
  | frame (g : Gesture)
  | uiOverride (selectedColor : Color)

/-- Applying a sequence of tint-blend operations, oldest first. -/
def applyTintOps (ops : List TintOp) (c : Color) : Color :=
  ops.foldl (fun acc op =>
    match op with
    | TintOp.frame g => animateTintStep g acc
    | TintOp.uiOverride sel => changeColorStep sel acc) c

/-- **C4, counterexample.**  The claim "after any sequence of tint
blends every channel is ≥ 0.3" fails: starting from the initial material
tint (1, 1, 1) (`color: 0xffffff`, line 1849), four UI tint-override
lerps toward black leave the red channel at 0.7⁴ = 0.2401 < 0.3, because
`changeColor` applies no floor clamp. -/
theorem tintFloor_counterexample :
    (applyTintOps
        [TintOp.uiOverride ⟨0, 0, 0⟩, TintOp.uiOverride ⟨0, 0, 0⟩,
         TintOp.uiOverride ⟨0, 0, 0⟩, TintOp.uiOverride ⟨0, 0, 0⟩]
        ⟨1, 1, 1⟩).r = 2401/10000 ∧ (2401/10000 : ℚ) < 3/10 := by
  constructor
  · norm_num [applyTintOps, changeColorStep, lerpColor]
  · norm_num

/-- **C4, amended.**  After any sequence of tint-blend operations that
ends with the per-frame gesture-driven blend of `animate` (the only
blend that applies the floor clamp), every channel of the tint is at
least 0.3; sequences ending in the UI tint-override lerp enjoy no such
floor (see the counterexample). -/
theorem tintFloor_after_frame (ops : List TintOp) (c : Color) (g : Gesture) :
    3/10 ≤ (animateTintStep g (applyTintOps ops c)).r ∧
    3/10 ≤ (animateTintStep g (applyTintOps ops c)).g ∧
    3/10 ≤ (animateTintStep g (applyTintOps ops c)).b :=
  ⟨le_max_left _ _, le_max_left _ _, le_max_left _ _⟩

/-! ### C9: convergence of the closed-gesture morph blend -/

/-- `morphSpeed = 0.08` (line 2217). -/
def morphSpeed : ℚ := 8/100

/-- One closed-gesture blend update of a single particle coordinate
(lines 2246-2251): `current += (target - current) * morphSpeed`, where
`target` is the compressed-sphere coordinate scaled by the noise
displacement (`bx * scaleVar`), fixed for a fixed animation clock. -/
def blendStep (target current : ℚ) : ℚ :=
  current + (target - current) * morphSpeed

/-- Iterating the blend update `n` times from `current`. -/
def blendIter (target current : ℚ) : ℕ → ℚ
  | 0 => current
  | n + 1 => blendStep target (blendIter target current n)

lemma blendIter_sub_target (target current : ℚ) (n : ℕ) :
    blendIter target current n - target =
      (1 - morphSpeed) ^ n * (current - target) := by
  induction n with
  | zero => simp [blendIter]
  | succ n ih =>
    have : blendIter target current (n + 1) - target =
        (1 - morphSpeed) * (blendIter target current n - target) := by
      simp only [blendIter, blendStep]
      ring
    rw [this, ih, pow_succ]
    ring

/-- **C9.**  For a fixed animation clock (hence a fixed noise
displacement `scaleVar`), iterating the closed-gesture blend update
with target `bx * scaleVar` from any starting coordinate comes — and
stays — within any `ε > 0` of the target after finitely many
iterations. -/
theorem blendIter_converges (bx scaleVar current ε : ℚ) (hε : 0 < ε) :
    ∃ N : ℕ, ∀ n : ℕ, N ≤ n →
      |blendIter (bx * scaleVar) current n - bx * scaleVar| < ε := by
  set target := bx * scaleVar with htarget
  set d := |current - target| with hd
  have hd0 : 0 ≤ d := abs_nonneg _
  have hr0 : (0:ℚ) ≤ 1 - morphSpeed := by norm_num [morphSpeed]
  have hr1 : (1:ℚ) - morphSpeed < 1 := by norm_num [morphSpeed]
  have hεd : 0 < ε / (d + 1) := by positivity
  obtain ⟨N, hN⟩ := exists_pow_lt_of_lt_one hεd hr1
  refine ⟨N, fun n hn => ?_⟩
  have habs : |blendIter target current n - target| =
      (1 - morphSpeed) ^ n * d := by
    rw [blendIter_sub_target, abs_mul, abs_pow, abs_of_nonneg hr0]
  rw [habs]
  have hpow : (1 - morphSpeed) ^ n ≤ (1 - morphSpeed) ^ N :=
    pow_le_pow_of_le_one hr0 (le_of_lt hr1) hn
  have hlt : (1 - morphSpeed) ^ n < ε / (d + 1) := lt_of_le_of_lt hpow hN
  calc (1 - morphSpeed) ^ n * d ≤ (ε / (d + 1)) * d := by
        apply mul_le_mul_of_nonneg_right (le_of_lt hlt) hd0
    _ < ε := by
        rw [div_mul_eq_mul_div, div_lt_iff₀ (by linarith)]
        nlinarith

theorem blendIter_converges_witness :
    (0:ℚ) < 1 ∧ ∃ N : ℕ, ∀ n : ℕ, N ≤ n →
      |blendIter ((30:ℚ) * 1) 100 n - (30:ℚ) * 1| < 1 :=
  ⟨by norm_num, blendIter_converges 30 1 100 1 (by norm_num)⟩

/-! ### C3: shape generation counts and color ranges -/

/-- `THREE.Color.multiplyScalar`. -/
def mulScalar (c : Color) (s : ℚ) : Color := ⟨c.r * s, c.g * s, c.b * s⟩

/-- The final per-channel clamp of `getGalaxyColor` (lines 1621-1623):
`max(0.0, min(1.0, ·))`. -/
def clamp01 (c : Color) : Color :=
  ⟨max 0 (min 1 c.r), max 0 (min 1 c.g), max 0 (min 1 c.b)⟩

/-- The warm bulge palette of `getGalaxyColor` (lines 1571-1575). -/
def centerColors : List Color :=
  [⟨1, 19/20, 17/20⟩, ⟨1, 9/10, 3/4⟩, ⟨19/20, 17/20, 7/10⟩]

/-- The spiral-arm palette of `getGalaxyColor` (lines 1577-1582). -/
def armColors : List Color :=
  [⟨9/10, 19/20, 1⟩, ⟨7/10, 17/20, 1⟩, ⟨1/2, 7/10, 1⟩, ⟨3/5, 4/5, 1⟩]

/-- The outer-region palette of `getGalaxyColor` (lines 1584-1588). -/
def outerColors : List Color :=
  [⟨2/5, 1/2, 4/5⟩, ⟨1/2, 2/5, 7/10⟩, ⟨3/5, 1/2, 4/5⟩]

/-- `getGalaxyColor(position)` (lines 1562-1626).  `u` is the stream of
`Math.random()` draws the call consumes: `u 0` picks the palette index
(`Math.floor(random * len)`), `u 1` the brightness jitter, `u 2`-`u 4`
the per-channel star variation.  The result is clamped per channel into
`[0, 1]`. -/
def getGalaxyColor (M : JsMath) (u : ℕ → ℚ) (position : Vec3) : Color :=
  let distance := M.sqrt (position.x * position.x + position.y * position.y +
    position.z * position.z)
  let normalizedDist := min (distance / 100) 1
  let finalColor :=
    if normalizedDist < 1/4 then
      mulScalar (centerColors.getD (Int.toNat ⌊u 0 * 3⌋) default)
        (11/10 + u 1 * (2/10))
    else if normalizedDist < 7/10 then
      mulScalar (armColors.getD (Int.toNat ⌊u 0 * 4⌋) default)
        (9/10 + u 1 * (3/10))
    else
      mulScalar (outerColors.getD (Int.toNat ⌊u 0 * 3⌋) default)
        (7/10 + u 1 * (2/10))
  clamp01 ⟨finalColor.r + (u 2 - 1/2) * (1/10),
           finalColor.g + (u 3 - 1/2) * (1/10),
           finalColor.b + (u 4 - 1/2) * (1/10)⟩

/-- `getSaturnColor(position)` (lines 1628-1690).  `u 0` is the single
`Math.random()` brightness draw of the taken branch.  Note: the ring
branch's `multiplyScalar(0.8 + random * 0.4)` is **not** followed by any
clamp. -/
def getSaturnColor (M : JsMath) (u : ℕ → ℚ) (position : Vec3) : Color :=
  let distSq := position.x * position.x + position.y * position.y +
    position.z * position.z
  let dist := M.sqrt distSq
  if 35 < dist then
    let band := dist
    let c : Color :=
      if 68 < band ∧ band < 72 then ⟨1/10, 1/10, 1/10⟩
      else if (45 < band ∧ band < 55) ∨ (75 < band ∧ band < 85) then
        ⟨17/20, 4/5, 7/10⟩
      else ⟨3/4, 13/20, 1/2⟩
    mulScalar c (4/5 + u 0 * (2/5))
  else
    let tilt := (-27) * M.pi / 180
    let cosT := M.cos tilt
    let sinT := M.sin tilt
    let localY := position.x * sinT + position.y * cosT
    let absY := |localY|
    let color : Color :=
      if 25 < absY then ⟨7/20, 7/20, 3/10⟩
      else if 18 < absY then ⟨7/10, 13/20, 1/2⟩
      else if 10 < absY then ⟨4/5, 7/10, 1/2⟩
      else if 3 < absY then ⟨17/20, 3/4, 11/20⟩
      else ⟨9/10, 4/5, 3/5⟩
    mulScalar color (9/10 + u 0 * (2/10))

/-- `getEarthColor(position)` (lines 1692-1753).  `u 0` is the random
cloud draw. -/
def getEarthColor (M : JsMath) (u : ℕ → ℚ) (position : Vec3) : Color :=
  let tilt := (-47/2) * M.pi / 180
  let cosT := M.cos tilt
  let sinT := M.sin tilt
  let localX := position.x * cosT - position.y * sinT
  let localY := position.x * sinT + position.y * cosT
  let localZ := position.z
  let dist := M.sqrt (localX * localX + localY * localY + localZ * localZ)
  if 36 < dist then ⟨1, 1, 1⟩
  else
    let absLat := |localY|
    if 28 < absLat then ⟨19/20, 49/50, 1⟩
    else
      let nX := localX * (12/100)
      let nY := localY * (12/100)
      let nZ := localZ * (12/100)
      let noise := M.sin nX * M.cos nY + M.sin (nY * (21/10) + nZ) * (1/2) +
        M.cos (nZ * (3/2) + nX) * (3/10)
      if 19/20 < u 0 then ⟨1, 1, 1⟩
      else if 1/5 < noise then
        if 3/5 < noise ∧ absLat < 20 then ⟨1/20, 7/20, 1/20⟩
        else if absLat < 22 then ⟨1/5, 1/2, 1/5⟩
        else if 25 < absLat then ⟨3/5, 3/5, 3/5⟩
        else ⟨1/2, 2/5, 1/4⟩
      else if noise < -1/2 then ⟨0, 1/10, 2/5⟩
      else ⟨0, 3/10, 7/10⟩

/-- The template-aware color dispatch of `createParticles` (lines
1812-1820): saturn and earth use their body colorers, every other
template uses the galaxy colorer. -/
def colorForTemplate (M : JsMath) (currentTemplate : String) (u : ℕ → ℚ)
    (position : Vec3) : Color :=
  if currentTemplate = "saturn" then getSaturnColor M u position
  else if currentTemplate = "earth" then getEarthColor M u position
  else getGalaxyColor M u position

/-- The position/color population loop of `createParticles` (lines
1805-1825): one generated position and one color per particle index
`i < particleCount`.  The per-index position generator `tmpl` stands for
the selected template closure (with its own draws absorbed), and
`u i` is the draw stream consumed by particle `i`'s color call. -/
def createParticlesArrays (M : JsMath) (currentTemplate : String)
    (tmpl : ℕ → Vec3) (u : ℕ → ℕ → ℚ) (particleCount : ℕ) :
    List Vec3 × List Color :=
  ((List.range particleCount).map tmpl,
   (List.range particleCount).map fun i =>
     colorForTemplate M currentTemplate (u i) (tmpl i))

/-- Channel-range helper: every channel of `c` lies in `[lo, hi]`. -/
def channelsIn (c : Color) (lo hi : ℚ) : Prop :=
  lo ≤ c.r ∧ c.r ≤ hi ∧ lo ≤ c.g ∧ c.g ≤ hi ∧ lo ≤ c.b ∧ c.b ≤ hi

lemma getGalaxyColor_range (M : JsMath) (u : ℕ → ℚ) (p : Vec3) :
    channelsIn (getGalaxyColor M u p) 0 1 := by
  show channelsIn (clamp01 _) 0 1
  unfold channelsIn clamp01
  exact ⟨le_max_left _ _, max_le (by norm_num) (min_le_left _ _),
    le_max_left _ _, max_le (by norm_num) (min_le_left _ _),
    le_max_left _ _, max_le (by norm_num) (min_le_left _ _)⟩

/-- The branch structure of `getEarthColor`, abstracted over the values
of its scrutinees (distance, latitude, noise, cloud draw), is always a
constant color with channels in `[0, 1]`. -/
lemma earthBranch_range (dist absLat noise cloud : ℚ) :
    channelsIn
      (if 36 < dist then ⟨1, 1, 1⟩
       else if 28 < absLat then ⟨19/20, 49/50, 1⟩
       else if 19/20 < cloud then ⟨1, 1, 1⟩
       else if 1/5 < noise then
         if 3/5 < noise ∧ absLat < 20 then ⟨1/20, 7/20, 1/20⟩
         else if absLat < 22 then ⟨1/5, 1/2, 1/5⟩
         else if 25 < absLat then ⟨3/5, 3/5, 3/5⟩
         else ⟨1/2, 2/5, 1/4⟩
       else if noise < -1/2 then ⟨0, 1/10, 2/5⟩
       else ⟨0, 3/10, 7/10⟩ : Color) 0 1 := by
  unfold channelsIn
  split_ifs <;> norm_num

lemma getEarthColor_range (M : JsMath) (u : ℕ → ℚ) (p : Vec3) :
    channelsIn (getEarthColor M u p) 0 1 :=
  earthBranch_range
    (M.sqrt ((p.x * M.cos ((-47/2) * M.pi / 180) -
        p.y * M.sin ((-47/2) * M.pi / 180)) *
      (p.x * M.cos ((-47/2) * M.pi / 180) -
        p.y * M.sin ((-47/2) * M.pi / 180)) +
      (p.x * M.sin ((-47/2) * M.pi / 180) +
        p.y * M.cos ((-47/2) * M.pi / 180)) *
      (p.x * M.sin ((-47/2) * M.pi / 180) +
        p.y * M.cos ((-47/2) * M.pi / 180)) + p.z * p.z))
    |p.x * M.sin ((-47/2) * M.pi / 180) + p.y * M.cos ((-47/2) * M.pi / 180)|
    (M.sin ((p.x * M.cos ((-47/2) * M.pi / 180) -
          p.y * M.sin ((-47/2) * M.pi / 180)) * (12/100)) *
        M.cos ((p.x * M.sin ((-47/2) * M.pi / 180) +
          p.y * M.cos ((-47/2) * M.pi / 180)) * (12/100)) +
      M.sin ((p.x * M.sin ((-47/2) * M.pi / 180) +
          p.y * M.cos ((-47/2) * M.pi / 180)) * (12/100) * (21/10) +
        p.z * (12/100)) * (1/2) +
      M.cos (p.z * (12/100) * (3/2) +
        (p.x * M.cos ((-47/2) * M.pi / 180) -
          p.y * M.sin ((-47/2) * M.pi / 180)) * (12/100)) * (3/10))
    (u 0)

/-- The branch structure of `getSaturnColor`, abstracted over its
scrutinees: with a brightness draw in `[0, 1)`, every channel lies in
`[0, 51/50]` (the bright ring bands attain values above 1). -/
lemma saturnBranch_range (dist absY u0 : ℚ) (hu0 : 0 ≤ u0) (hu1 : u0 < 1) :
    channelsIn
      (if 35 < dist then
        mulScalar
          (if 68 < dist ∧ dist < 72 then ⟨1/10, 1/10, 1/10⟩
           else if (45 < dist ∧ dist < 55) ∨ (75 < dist ∧ dist < 85) then
             ⟨17/20, 4/5, 7/10⟩
           else ⟨3/4, 13/20, 1/2⟩)
          (4/5 + u0 * (2/5))
       else
        mulScalar
          (if 25 < absY then ⟨7/20, 7/20, 3/10⟩
           else if 18 < absY then ⟨7/10, 13/20, 1/2⟩
           else if 10 < absY then ⟨4/5, 7/10, 1/2⟩
           else if 3 < absY then ⟨17/20, 3/4, 11/20⟩
           else ⟨9/10, 4/5, 3/5⟩)
          (9/10 + u0 * (2/10))) 0 (51/50) := by
  unfold channelsIn mulScalar
  split_ifs <;> refine ⟨?_, ?_, ?_, ?_, ?_, ?_⟩ <;> nlinarith

lemma getSaturnColor_range (M : JsMath) (u : ℕ → ℚ) (p : Vec3)
    (hu : 0 ≤ u 0 ∧ u 0 < 1) :
    channelsIn (getSaturnColor M u p) 0 (51/50) :=
  saturnBranch_range (M.sqrt (p.x * p.x + p.y * p.y + p.z * p.z))
    |p.x * M.sin ((-27) * M.pi / 180) + p.y * M.cos ((-27) * M.pi / 180)|
    (u 0) hu.1 hu.2

/-- **C3, counterexample.**  Not every produced color channel lies in
`[0, 1]`: a saturn ring particle at distance 50 from the centre (a
bright-band radius the ring generator draws with probability ≈ 1/5,
e.g. radius draw 0.2 ⇒ `r = 50`) with brightness draw 0.95 gets red
channel `0.85 * (0.8 + 0.95*0.4) = 1.003 > 1`, because the ring branch
of `getSaturnColor` applies no clamp after `multiplyScalar`.  The
`JsMath.sqrt` stub used agrees with the real square root on the one
input involved (`√2500 = 50`), as the first two conjuncts certify. -/
theorem saturnColor_counterexample :
    ((fun q => if q = 2500 then (50 : ℚ) else 0) (2500 : ℚ)) ^ 2 = 2500 ∧
    (0:ℚ) ≤ (fun q => if q = 2500 then (50 : ℚ) else 0) (2500 : ℚ) ∧
    (0:ℚ) ≤ 19/20 ∧ (19/20 : ℚ) < 1 ∧
    (getSaturnColor
        ⟨fun q => if q = 2500 then 50 else 0, fun _ => 0, fun _ => 0,
          fun _ => 0, fun _ _ => 0, 0⟩
        (fun _ => 19/20) ⟨50, 0, 0⟩).r = 1003/1000 ∧
    (1 : ℚ) < 1003/1000 := by
  refine ⟨by norm_num, by norm_num, by norm_num, by norm_num, ?_, by norm_num⟩
  norm_num [getSaturnColor, mulScalar]

/-- **C3, amended.**  For every template key, particle-position
generator and particle count `N`, the population loop of
`createParticles` produces exactly `N` positions and exactly `N`
per-particle base colors; for every possible stream of RNG draws, every
channel of every produced color lies in `[0, 51/50]`, and in `[0, 1]`
for every template other than saturn (the saturn ring colorer can exceed
1, up to 0.85·1.2 = 1.02 — see the counterexample). -/
theorem createParticles_counts_and_colors (M : JsMath)
    (currentTemplate : String) (tmpl : ℕ → Vec3) (u : ℕ → ℕ → ℚ)
    (particleCount : ℕ) (hu : ∀ i k, 0 ≤ u i k ∧ u i k < 1) :
    (createParticlesArrays M currentTemplate tmpl u particleCount).1.length =
      particleCount ∧
    (createParticlesArrays M currentTemplate tmpl u particleCount).2.length =
      particleCount ∧
    (∀ c ∈ (createParticlesArrays M currentTemplate tmpl u particleCount).2,
      channelsIn c 0 (51/50)) ∧
    (currentTemplate ≠ "saturn" →
      ∀ c ∈ (createParticlesArrays M currentTemplate tmpl u particleCount).2,
        channelsIn c 0 1) := by
  refine ⟨by simp [createParticlesArrays], by simp [createParticlesArrays],
    ?_, ?_⟩
  · intro c hc
    simp only [createParticlesArrays, List.mem_map, List.mem_range] at hc
    obtain ⟨i, _, rfl⟩ := hc
    unfold colorForTemplate
    split_ifs
    · exact getSaturnColor_range M (u i) (tmpl i) (hu i 0)
    · have h := getEarthColor_range M (u i) (tmpl i)
      unfold channelsIn at h ⊢
      refine ⟨h.1, by linarith [h.2.1], h.2.2.1, by linarith [h.2.2.2.1],
        h.2.2.2.2.1, by linarith [h.2.2.2.2.2]⟩
    · have h := getGalaxyColor_range M (u i) (tmpl i)
      unfold channelsIn at h ⊢
      refine ⟨h.1, by linarith [h.2.1], h.2.2.1, by linarith [h.2.2.2.1],
        h.2.2.2.2.1, by linarith [h.2.2.2.2.2]⟩
  · intro hk c hc
    simp only [createParticlesArrays, List.mem_map, List.mem_range] at hc
    obtain ⟨i, _, rfl⟩ := hc
    unfold colorForTemplate
    split_ifs with h1 h2
    · exact absurd h1 hk
    · exact getEarthColor_range M (u i) (tmpl i)
    · exact getGalaxyColor_range M (u i) (tmpl i)

theorem createParticles_counts_and_colors_witness :
    (∀ i k : ℕ, 0 ≤ (fun (_ _ : ℕ) => (1/2 : ℚ)) i k ∧
      (fun (_ _ : ℕ) => (1/2 : ℚ)) i k < 1) ∧
    (createParticlesArrays
        ⟨fun _ => 0, fun _ => 0, fun _ => 0, fun _ => 0, fun _ _ => 0, 0⟩
        "saturn" (fun _ => ⟨0, 0, 0⟩) (fun _ _ => 1/2) 3).1.length = 3 :=
  ⟨fun _ _ => by norm_num,
    (createParticles_counts_and_colors
      ⟨fun _ => 0, fun _ => 0, fun _ => 0, fun _ => 0, fun _ _ => 0, 0⟩
      "saturn" (fun _ => ⟨0, 0, 0⟩) (fun _ _ => 1/2) 3
      (fun _ _ => by norm_num)).1⟩

/-! ### C5: NaN in the closed-gesture morph -/

/-- A JavaScript numeric value that may be non-finite: `none` stands for
NaN (or another non-finite value produced from it); arithmetic
propagates it exactly as JavaScript propagates NaN. -/
abbrev JsNum := Option ℚ

/-- NaN-propagating addition. -/
def jsAdd : JsNum → JsNum → JsNum
  | some a, some b => some (a + b)
  | _, _ => none

/-- NaN-propagating subtraction. -/
def jsSub : JsNum → JsNum → JsNum
  | some a, some b => some (a - b)
  | _, _ => none

/-- NaN-propagating multiplication. -/
def jsMul : JsNum → JsNum → JsNum
  | some a, some b => some (a * b)
  | _, _ => none

/-- NaN-propagating division.  JavaScript's `0/0` is NaN (and a nonzero
numerator over 0 is an infinity, which the later `· * 0`-free uses here
also turn non-finite); both non-finite outcomes are embedded as
`none`. -/
def jsDiv : JsNum → JsNum → JsNum
  | some a, some b => if b = 0 then none else some (a / b)
  | _, _ => none

/-- `Math.sin` lifted to `JsNum` (`Math.sin(NaN) = NaN`). -/
def jsSin (M : JsMath) : JsNum → JsNum
  | some a => some (M.sin a)
  | none => none

/-- `Math.cos` lifted to `JsNum`. -/
def jsCos (M : JsMath) : JsNum → JsNum
  | some a => some (M.cos a)
  | none => none

/-- The closed-gesture morph target for the x-coordinate of one
particle (lines 2229-2245 of `animate`): from the particle's
compressed-sphere position `b` and the animation clock `t`,
`dist = √(bx²+by²+bz²)`, `n = b / dist` (NOT guarded against
`dist = 0`), a standing-wave `noise` of `n` and `t`,
`scaleVar = 1 + noise·0.05`, and the target `bx · scaleVar`. -/
def closedMorphTargetX (M : JsMath) (b : Vec3) (t : ℚ) : JsNum :=
  let dist := M.sqrt (b.x * b.x + b.y * b.y + b.z * b.z)
  let nx := jsDiv (some b.x) (some dist)
  let ny := jsDiv (some b.y) (some dist)
  let nz := jsDiv (some b.z) (some dist)
  let noise :=
    jsAdd
      (jsMul
        (jsMul (jsSin M (jsAdd (jsMul nx (some 4)) (some t)))
          (jsCos M (jsAdd (jsMul ny (some 4)) (some t))))
        (jsSin M (jsAdd (jsMul nz (some 4)) (some (t * (3/2))))))
      (jsMul (jsSin M (jsSub (jsMul nx (some 10)) (some (t * 2))))
        (some (1/2)))
  let scaleVar := jsAdd (some 1) (jsMul noise (some (5/100)))
  jsMul (some b.x) scaleVar

/-- One closed-gesture morph update of the x-coordinate of one particle
(lines 2246-2247): `current += (target - current) * morphSpeed`. -/
def closedMorphStepX (M : JsMath) (b : Vec3) (t : ℚ) (current : ℚ) : JsNum :=
  jsAdd (some current)
    (jsMul (jsSub (closedMorphTargetX M b t) (some current)) (some morphSpeed))

/-- **C5.**  The division by the compressed-position length in the
closed-gesture morph is NOT guarded: the compressed-sphere sampler
(lines 1834-1838) draws radius `Math.random() * 30`, and a radius draw
of exactly 0 puts `(0,0,0)` into `spherePositions`
(`setFromSphericalCoords(0, φ, θ) = (0,0,0)`, first conjunct).  For that
particle `dist = √0 = 0` and `nx = 0/0 = NaN`; the NaN propagates
through the noise and `scaleVar` into the blended coordinate, so a NaN
(`none`) is written into the positions buffer (second conjunct) — the
claim's guarded fallback does not exist in the code. -/
theorem closedMorph_nan_on_zero_radius (M : JsMath) (h0 : M.sqrt 0 = 0)
    (phi theta t current : ℚ) :
    setFromSphericalCoords M 0 phi theta = ⟨0, 0, 0⟩ ∧
    closedMorphStepX M ⟨0, 0, 0⟩ t current = none := by
  constructor
  · unfold setFromSphericalCoords
    simp [Vec3.mk.injEq]
  · unfold closedMorphStepX closedMorphTargetX
    have hd : M.sqrt ((0:ℚ) * 0 + 0 * 0 + 0 * 0) = 0 := by
      simpa using h0
    simp only [hd]
    simp [jsDiv, jsMul, jsAdd, jsSub, jsSin, jsCos]

theorem closedMorph_nan_on_zero_radius_witness :
    (JsMath.sqrt ⟨fun _ => 0, fun _ => 0, fun _ => 0, fun _ => 0,
        fun _ _ => 0, 0⟩ 0 = 0) ∧
    (setFromSphericalCoords
        ⟨fun _ => 0, fun _ => 0, fun _ => 0, fun _ => 0, fun _ _ => 0, 0⟩
        0 (1/4) (1/3) = ⟨0, 0, 0⟩ ∧
      closedMorphStepX
        ⟨fun _ => 0, fun _ => 0, fun _ => 0, fun _ => 0, fun _ _ => 0, 0⟩
        ⟨0, 0, 0⟩ 7 (5/2) = none) :=
  ⟨rfl,
    closedMorph_nan_on_zero_radius
      ⟨fun _ => 0, fun _ => 0, fun _ => 0, fun _ => 0, fun _ _ => 0, 0⟩
      rfl (1/4) (1/3) 7 (5/2)⟩

/-! ### C6: the template registry and `changeTemplate` -/

/-- The template tags of the registry (lines 716-907). -/
inductive Template where
  | galaxy | spiral | barred | sphere | heart | flower
  | saturn | earth | buddha | fireworks
deriving DecidableEq, Repr

/-- The template registry `templates` (lines 716-907): keys in insertion
order. -/
def templatesRegistry : List (String × Template) :=
  [("galaxy", Template.galaxy), ("spiral", Template.spiral),
   ("barred", Template.barred), ("sphere", Template.sphere),
   ("heart", Template.heart), ("flower", Template.flower),
   ("saturn", Template.saturn), ("earth", Template.earth),
   ("buddha", Template.buddha), ("fireworks", Template.fireworks)]

/-- `templates[key]`: the registry lookup performed by
`createParticles` (line 1806). -/
def lookupTemplate (key : String) : Option Template :=
  (templatesRegistry.find? fun p => p.1 == key).map fun p => p.2

/-- What a call to `changeTemplate` leads to for the shape generator:
either particles are regenerated from a registry template, or the
registry lookup yields `undefined` and the generation loop throws
(`templates[currentTemplate] is not a function`), or the special
`'solarsystem'` value toggles solar-system mode and never invokes the
generator. -/
inductive GenOutcome where
  | generated (t : Template)
  | failed
  | solarToggled
deriving DecidableEq, Repr

/-- The mode/template state touched by `changeTemplate`. -/
structure AppState where
  currentTemplate : String
  solarSystemEnabled : Bool
deriving DecidableEq, Repr

/-- The registry dispatch at the top of `createParticles`'s population
loop (line 1806): an absent key throws, a present key runs the
template's generator. -/
def createParticlesDispatch (key : String) : GenOutcome :=
  match lookupTemplate key with
  | some t => GenOutcome.generated t
  | none => GenOutcome.failed

/-- `changeTemplate(event)` (lines 1868-1879) with the mutable state
explicit: the value `'solarsystem'` toggles solar-system mode on and
returns without generating; any other value switches solar-system mode
off, sets `currentTemplate`, and re-runs `createParticles`. -/
def changeTemplate (value : String) (st : AppState) : AppState × GenOutcome :=
  if value = "solarsystem" then
    ({ st with solarSystemEnabled := true }, GenOutcome.solarToggled)
  else
    let st1 : AppState := { currentTemplate := value, solarSystemEnabled := false }
    (st1, createParticlesDispatch st1.currentTemplate)

/-- **C6, counterexample.**  Not every key absent from the template
registry makes shape generation fail: `'solarsystem'` is absent from the
registry, yet `changeTemplate('solarsystem')` raises no error at all —
it toggles solar-system mode and never invokes the generator. -/
theorem unknownTemplate_counterexample :
    lookupTemplate "solarsystem" = none ∧
    (changeTemplate "solarsystem" ⟨"galaxy", false⟩).2 =
      GenOutcome.solarToggled ∧
    (changeTemplate "solarsystem" ⟨"galaxy", false⟩).2 ≠ GenOutcome.failed := by
  refine ⟨by decide, by decide, by decide⟩

/-- **C6, amended.**  Requesting any template key other than the special
`'solarsystem'` value that is absent from the template registry causes
shape generation to fail with a thrown lookup error surfaced to the
caller (the `undefined` registry entry is called as a function), and no
template's generator runs — no default shape is silently substituted.
(`'solarsystem'` instead toggles solar-system mode without invoking the
generator.) -/
theorem unknownTemplate_fails (key : String) (st : AppState)
    (habsent : lookupTemplate key = none) (hsolar : key ≠ "solarsystem") :
    (changeTemplate key st).2 = GenOutcome.failed ∧
    ∀ t : Template, (changeTemplate key st).2 ≠ GenOutcome.generated t := by
  unfold changeTemplate createParticlesDispatch
  rw [if_neg hsolar]
  simp [habsent]

theorem unknownTemplate_fails_witness :
    (lookupTemplate "nebula" = none ∧ "nebula" ≠ "solarsystem") ∧
    ((changeTemplate "nebula" ⟨"galaxy", false⟩).2 = GenOutcome.failed ∧
      ∀ t : Template,
        (changeTemplate "nebula" ⟨"galaxy", false⟩).2 ≠
          GenOutcome.generated t) :=
  ⟨⟨by decide, by decide⟩,
    unknownTemplate_fails "nebula" ⟨"galaxy", false⟩ (by decide) (by decide)⟩

/-! ### C10: the saturn ring-radius rejection loop -/

/-- One iteration of the saturn template's ring-radius rejection loop
(lines 815-825): draw `r = random*50 + 40`; if `68 < r < 72` (the
Cassini-gap band) accept only when a further draw is `< 0.1`, otherwise
accept immediately.  `u` is the draw stream and `c` the cursor of the
next unconsumed draw; the result is the accepted radius (or `none`) and
the new cursor. -/
def saturnRingStep (u : ℕ → ℚ) (c : ℕ) : Option ℚ × ℕ :=
  let r := u c * 50 + 40
  if 68 < r ∧ r < 72 then
    (if u (c + 1) < 1/10 then (some r, c + 2) else (none, c + 2))
  else
    (some r, c + 1)

/-- The rejection loop with explicit fuel: `none` means the loop has not
accepted within `fuel` iterations. -/
def saturnRingLoop (u : ℕ → ℚ) : ℕ → ℕ → Option ℚ
  | 0, _ => none
  | fuel + 1, c =>
    match saturnRingStep u c with
    | (some r, _) => some r
    | (none, c') => saturnRingLoop u fuel c'

/-- The cursor at the start of iteration `k` of the loop, starting from
cursor `c`. -/
def ringCursorFrom (u : ℕ → ℚ) (c : ℕ) : ℕ → ℕ
  | 0 => c
  | k + 1 => (saturnRingStep u (ringCursorFrom u c k)).2

/-- Iteration `k` of the loop (from cursor `c`) accepts its radius. -/
def ringAcceptsFrom (u : ℕ → ℚ) (c k : ℕ) : Prop :=
  (saturnRingStep u (ringCursorFrom u c k)).1.isSome

lemma ringCursorFrom_shift (u : ℕ → ℚ) (c : ℕ) (k : ℕ) :
    ringCursorFrom u c (k + 1) =
      ringCursorFrom u (saturnRingStep u c).2 k := by
  induction k with
  | zero => rfl
  | succ k ih =>
    show (saturnRingStep u (ringCursorFrom u c (k + 1))).2 = _
    rw [ih]
    rfl

lemma saturnRingLoop_of_accepts (u : ℕ → ℚ) :
    ∀ k c, ringAcceptsFrom u c k →
      ∃ fuel r, saturnRingLoop u fuel c = some r := by
  intro k
  induction k with
  | zero =>
    intro c hacc
    unfold ringAcceptsFrom ringCursorFrom at hacc
    rcases hstep : (saturnRingStep u c).1 with _ | r
    · rw [hstep] at hacc; exact absurd hacc (by simp)
    · refine ⟨1, r, ?_⟩
      unfold saturnRingLoop
      rcases hfull : saturnRingStep u c with ⟨res, c'⟩
      rw [hfull] at hstep
      cases res with
      | none => simp at hstep
      | some r' => simp at hstep; subst hstep; rfl
  | succ k ih =>
    intro c hacc
    rcases hfull : saturnRingStep u c with ⟨res, c'⟩
    cases res with
    | some r =>
      refine ⟨1, r, ?_⟩
      unfold saturnRingLoop
      rw [hfull]
    | none =>
      have hacc' : ringAcceptsFrom u c' k := by
        unfold ringAcceptsFrom
        rw [show ringCursorFrom u c' k = ringCursorFrom u c (k + 1) by
          rw [ringCursorFrom_shift, hfull]]
        exact hacc
      obtain ⟨fuel, r, hloop⟩ := ih c' hacc'
      refine ⟨fuel + 1, r, ?_⟩
      unfold saturnRingLoop
      rw [hfull]
      exact hloop

/-- On the constant draw stream 0.6, every iteration draws radius 70
(inside the Cassini gap) and a sparseness draw 0.6 ≥ 0.1, so the loop
never accepts, whatever the fuel and cursor. -/
lemma saturnRingLoop_const_spins (fuel c : ℕ) :
    saturnRingLoop (fun _ => 3/5) fuel c = none := by
  induction fuel generalizing c with
  | zero => rfl
  | succ fuel ih =>
    unfold saturnRingLoop saturnRingStep
    norm_num
    exact ih (c + 2)

/-- **C10, counterexample.**  The ring-radius rejection loop does NOT
terminate for every infinite stream of RNG draws: on the constant stream
0.6 every radius draw is 70 — inside the gap band (68, 72) — and every
sparseness draw is 0.6 ≥ 0.1, so no amount of fuel makes the loop
accept; generating a saturn ring particle is not a total function of the
draw stream. -/
theorem saturnLoop_counterexample :
    ¬ ∃ fuel : ℕ, (saturnRingLoop (fun _ => 3/5) fuel 0).isSome := by
  rintro ⟨fuel, hsome⟩
  rw [saturnRingLoop_const_spins fuel 0] at hsome
  exact absurd hsome (by simp)

/-- **C10, amended.**  The rejection loop terminates exactly on those
draw streams for which some iteration accepts — its radius draw lands
outside the gap band (68, 72), or its sparseness draw is < 0.1: for any
such stream there is a fuel bound under which the loop returns a
radius.  (Streams for which every iteration lands in the gap and fails
the sparseness check — e.g. the constant stream 0.6 — make the loop
spin forever; see the counterexample.) -/
theorem saturnLoop_terminates_iff_accepts (u : ℕ → ℚ)
    (hacc : ∃ k, ringAcceptsFrom u 0 k) :
    ∃ fuel r, saturnRingLoop u fuel 0 = some r := by
  obtain ⟨k, hk⟩ := hacc
  exact saturnRingLoop_of_accepts u k 0 hk

theorem saturnLoop_terminates_witness :
    (∃ k, ringAcceptsFrom (fun _ => 0) 0 k) ∧
    ∃ fuel r, saturnRingLoop (fun _ => 0) fuel 0 = some r :=
  ⟨⟨0, by norm_num [ringAcceptsFrom, ringCursorFrom, saturnRingStep]⟩,
    saturnLoop_terminates_iff_accepts (fun _ => 0)
      ⟨0, by norm_num [ringAcceptsFrom, ringCursorFrom, saturnRingStep]⟩⟩

/-! ### C7: malformed one-hand observations -/

/-- `positionScale = 200` (line 703). -/
def positionScale : ℚ := 200

/-- A thrown JavaScript error (reading a property of `undefined`). -/
inductive JsError where
  | typeError
deriving DecidableEq, Repr

/-- The classifier state and control signals written by the one-hand
branch of `onResults` (lines 2343-2358). -/
structure HandState where
  handGesture : Gesture
  gestureHistory : List Gesture
  handDistance : ℚ
  targetHandPosition : Vec3
  targetHandRotationZ : ℚ
  targetHandRotationY : ℚ
deriving DecidableEq, Repr

/-- The one-hand branch of `onResults` (lines 2343-2358), with the
mutable globals made an explicit state and a thrown `TypeError` made an
explicit error result.  In program order: `detectGesture`,
`smoothGesture` (which also rewrites the history), `updateHandPosition`
(wrist, lines 2053-2062), `-getHandRoll` (wrist and middle-MCP 9, lines
2070-2091), `getHandYaw * 2` (index-MCP 5 and pinky-MCP 17, lines
2099-2116), then `handDistance = 0.5`.  A missing landmark index throws
at that point, leaving every not-yet-assigned global unchanged. -/
def oneHandUpdate (M : JsMath) (hand : List Landmark) (st : HandState) :
    HandState × Option JsError :=
  match detectGesture hand with
  | none => (st, some JsError.typeError)
  | some detectedGesture =>
    let res := smoothGesture detectedGesture st.gestureHistory
    let st1 := { st with handGesture := res.1, gestureHistory := res.2 }
    match hand[0]? with
    | none => (st1, some JsError.typeError)
    | some wrist =>
      let st2 := { st1 with targetHandPosition :=
        ⟨(wrist.x - 1/2) * positionScale, (1/2 - wrist.y) * positionScale,
         wrist.z * positionScale * (1/2)⟩ }
      match hand[9]? with
      | none => (st2, some JsError.typeError)
      | some mcp9 =>
        let roll := M.atan2 (mcp9.y - wrist.y) (mcp9.x - wrist.x) + M.pi / 2
        let st3 := { st2 with targetHandRotationZ := -roll }
        match hand[5]?, hand[17]? with
        | some indexMCP, some pinkyMCP =>
          let yaw := (indexMCP.z - pinkyMCP.z) * 8
          ({ st3 with targetHandRotationY := yaw * 2, handDistance := 1/2 },
            none)
        | _, _ => (st3, some JsError.typeError)

lemma detectGesture_none_of_short (l : List Landmark) (h : l.length < 21) :
    detectGesture l = none := by
  have h20 : l[20]? = none := List.getElem?_eq_none (by omega)
  have hp : isFingerExtended l 20 18 = none := by
    unfold isFingerExtended
    rw [h20]
  rcases h1 : isFingerExtended l 4 3 with _ | b1
  · simp [detectGesture, h1]
  rcases h2 : isFingerExtended l 8 6 with _ | b2
  · simp [detectGesture, h1, h2]
  rcases h3 : isFingerExtended l 12 10 with _ | b3
  · simp [detectGesture, h1, h2, h3]
  rcases h4 : isFingerExtended l 16 14 with _ | b4
  · simp [detectGesture, h1, h2, h3, h4]
  simp [detectGesture, h1, h2, h3, h4, hp]

/-- **C7.**  A one-hand observation whose landmark list has fewer than
21 points (so a required index is missing) makes the frame's
classification fail with a thrown error — the very first landmark read
of `detectGesture` on a missing index throws — and the previously
smoothed gesture, gesture history and all control signals are retained
unchanged: the error escapes the pose callback before any assignment
runs, and the separately scheduled animation loop is untouched. -/
theorem malformedObservation_spec (M : JsMath) (hand : List Landmark)
    (st : HandState) (hshort : hand.length < 21) :
    oneHandUpdate M hand st = (st, some JsError.typeError) := by
  unfold oneHandUpdate
  rw [detectGesture_none_of_short hand hshort]

theorem malformedObservation_spec_witness :
    ([⟨0, 0, 0⟩, ⟨1/2, 1/2, 0⟩] : List Landmark).length < 21 ∧
    oneHandUpdate
        ⟨fun _ => 0, fun _ => 0, fun _ => 0, fun _ => 0, fun _ _ => 0, 0⟩
        [⟨0, 0, 0⟩, ⟨1/2, 1/2, 0⟩]
        ⟨Gesture.peace, [Gesture.peace], 1, ⟨1, 2, 3⟩, 4, 5⟩ =
      (⟨Gesture.peace, [Gesture.peace], 1, ⟨1, 2, 3⟩, 4, 5⟩,
        some JsError.typeError) :=
  ⟨by decide,
    malformedObservation_spec
      ⟨fun _ => 0, fun _ => 0, fun _ => 0, fun _ => 0, fun _ _ => 0, 0⟩
      [⟨0, 0, 0⟩, ⟨1/2, 1/2, 0⟩]
      ⟨Gesture.peace, [Gesture.peace], 1, ⟨1, 2, 3⟩, 4, 5⟩ (by decide)⟩

/-! ### C8: the explode operation -/

/-- The three particle-position buffers of the particle system: the live
positions (`particles.geometry.attributes.position.array`), the stored
base-shape positions (`basePositions`, line 1828) and the pre-computed
compressed-sphere positions (`spherePositions`, lines 1831-1842). -/
structure UniverseBuffers where
  positions : List Vec3
  basePositions : List Vec3
  spherePositions : List Vec3
deriving DecidableEq, Repr

/-- Squared Euclidean norm of a vector. -/
def normSq (v : Vec3) : ℚ := v.x * v.x + v.y * v.y + v.z * v.z

/-- `explodeUniverse()` (lines 1896-1915): every particle's position is
reassigned via `setFromSphericalCoords(random*300 + 50,
acos(random*2 - 1), random*π*2)`; `u i` is the triple of `Math.random()`
draws consumed for particle `i`.  Only the live positions buffer is
written. -/
def explodeUniverse (M : JsMath) (u : ℕ → ℚ × ℚ × ℚ)
    (st : UniverseBuffers) : UniverseBuffers :=
  let newPositions := (List.range st.positions.length).map fun i =>
    setFromSphericalCoords M ((u i).1 * 300 + 50)
      (M.acos ((u i).2.1 * 2 - 1)) ((u i).2.2 * M.pi * 2)
  { st with positions := newPositions }

/-- **C8.**  The explode operation reassigns every particle's position
to a random point whose distance from the origin is the freshly drawn
radius `random*300 + 50 ∈ [50, 350)` — a spherical shell of radius
between 50 and 350 — and leaves the stored base-shape positions and the
compressed-sphere positions unchanged (and the particle count is
preserved).  The only facts assumed of the host trigonometry are
`sin² + cos² = 1` and that the radius draws lie in `[0, 1)`. -/
theorem explodeUniverse_spec (M : JsMath) (u : ℕ → ℚ × ℚ × ℚ)
    (st : UniverseBuffers)
    (htrig : ∀ x : ℚ, M.sin x ^ 2 + M.cos x ^ 2 = 1)
    (hu : ∀ i, 0 ≤ (u i).1 ∧ (u i).1 < 1) :
    (explodeUniverse M u st).basePositions = st.basePositions ∧
    (explodeUniverse M u st).spherePositions = st.spherePositions ∧
    (explodeUniverse M u st).positions.length = st.positions.length ∧
    ∀ i, i < (explodeUniverse M u st).positions.length →
      50 ≤ (u i).1 * 300 + 50 ∧ (u i).1 * 300 + 50 < 350 ∧
      normSq ((explodeUniverse M u st).positions.getD i default) =
        ((u i).1 * 300 + 50) ^ 2 := by
  refine ⟨rfl, rfl, by simp [explodeUniverse], ?_⟩
  intro i hi
  simp only [explodeUniverse, List.length_map, List.length_range] at hi
  have hclamp := hu i
  refine ⟨by linarith [hclamp.1], by linarith [hclamp.2], ?_⟩
  have hget : (explodeUniverse M u st).positions.getD i default =
      setFromSphericalCoords M ((u i).1 * 300 + 50)
        (M.acos ((u i).2.1 * 2 - 1)) ((u i).2.2 * M.pi * 2) := by
    simp [explodeUniverse, List.getD_eq_getElem?_getD, List.getElem?_map,
      List.getElem?_range hi]
  rw [hget]
  unfold setFromSphericalCoords normSq
  have hA := htrig (M.acos ((u i).2.1 * 2 - 1))
  have hB := htrig ((u i).2.2 * M.pi * 2)
  set r := (u i).1 * 300 + 50
  set sA := M.sin (M.acos ((u i).2.1 * 2 - 1))
  set cA := M.cos (M.acos ((u i).2.1 * 2 - 1))
  set sB := M.sin ((u i).2.2 * M.pi * 2)
  set cB := M.cos ((u i).2.2 * M.pi * 2)
  linear_combination (r ^ 2 * sA ^ 2) * hB + r ^ 2 * hA

theorem explodeUniverse_spec_witness :
    ((∀ _x : ℚ, (0:ℚ) ^ 2 + (1:ℚ) ^ 2 = 1) ∧
      (∀ _i : ℕ, (0:ℚ) ≤ 0 ∧ (0:ℚ) < 1)) ∧
    ((explodeUniverse
        ⟨fun _ => 0, fun _ => 0, fun _ => 1, fun _ => 0, fun _ _ => 0, 0⟩
        (fun _ => (0, 0, 0))
        ⟨[⟨1, 2, 3⟩], [⟨4, 5, 6⟩], [⟨7, 8, 9⟩]⟩).basePositions =
      [⟨4, 5, 6⟩]) :=
  ⟨⟨fun _ => by norm_num, fun _ => ⟨le_refl 0, zero_lt_one⟩⟩,
    (explodeUniverse_spec
      ⟨fun _ => 0, fun _ => 0, fun _ => 1, fun _ => 0, fun _ _ => 0, 0⟩
      (fun _ => (0, 0, 0)) ⟨[⟨1, 2, 3⟩], [⟨4, 5, 6⟩], [⟨7, 8, 9⟩]⟩
      (fun x => by norm_num) (fun i => ⟨le_refl 0, zero_lt_one⟩)).1⟩
